import Mathlib

/-!
Verification of flutter_volume_controller: the Windows volume adapter
(`src/windows/volume_controller.cpp`) and the event callbacks of the Linux
plugin (`src/linux/flutter_volume_controller_plugin.cc`), as a shallow embedding.

Conventions.

* `float` levels are exact rationals (`ℚ`): comparison, addition and
  subtraction are the exact ones, rounding is not modelled.
* `UINT` step values are natural numbers; the only increment in the code
  (`index++` under the guard `index < step_count`) cannot wrap.
* A C++ member function becomes a function from the controller state to
  `Option (result × state)`; `none` is a dereference of a null
  `endpoint_volume`, the only undefined behaviour the embedded code can reach.
* Every call made through `endpoint_volume` or `volume_notification` is
  appended to `VolumeController.calls`, oldest first.
-/

namespace flutter_volume_controller

/-! ## The native mixer (Windows Core Audio `IAudioEndpointVolume`) -/

/-- Windows `HRESULT`: a signed 32-bit status, negative on failure. -/
abbrev HRESULT := Int

/-- Success status. -/
def S_OK : HRESULT := 0

/-- Unspecified failure, `0x80004005` read as a signed 32-bit value. -/
def E_FAIL : HRESULT := -2147467259

/-- The `FAILED(hr)` test of the Windows headers: `hr < 0`. -/
def FAILED (hr : HRESULT) : Bool := decide (hr < 0)

/-- One call through `endpoint_volume` or `volume_notification`, with its arguments. -/
inductive NativeCall where
  | GetVolumeStepInfo
  | SetMute (bMute : Bool)
  | SetMasterVolumeLevelScalar (fLevel : ℚ)
  | VolumeStepUp
  | VolumeStepDown
  | RegisterControlChangeNotify (notification : Nat)
  | UnregisterControlChangeNotify (notification : Nat)
  | NotificationRelease (notification : Nat)
  deriving DecidableEq

/-- State of the audio endpoint behind `IAudioEndpointVolume`.

`current_step` and `step_count` are the pair reported by `GetVolumeStepInfo`,
`muted` the mute flag, `master_scalar` the last scalar level written,
`registered` the notification objects currently registered. `hresults` is the
status the endpoint gives to each of its next calls, in order; once it is
exhausted every call succeeds. A failing call changes nothing but consumes its
status. -/
structure Endpoint where
  current_step : Nat
  step_count : Nat
  muted : Bool
  master_scalar : ℚ
  registered : List Nat
  hresults : List HRESULT
  deriving DecidableEq

/-- Status of the next native call, and the endpoint with that status consumed. -/
def Endpoint.next (ep : Endpoint) : HRESULT × Endpoint :=
  match ep.hresults with
  | [] => (S_OK, ep)
  | hr :: rest => (hr, { ep with hresults := rest })

/-- Native `GetVolumeStepInfo(&current_step, &step_count)`: status, the two out values, endpoint. -/
def Endpoint.GetVolumeStepInfo (ep : Endpoint) : (HRESULT × Nat × Nat) × Endpoint :=
  let r := ep.next
  ((r.1, ep.current_step, ep.step_count), r.2)

/-- Native `SetMute(bMute, NULL)`. -/
def Endpoint.SetMute (bMute : Bool) (ep : Endpoint) : HRESULT × Endpoint :=
  let r := ep.next
  if FAILED r.1 then r else (r.1, { r.2 with muted := bMute })

/-- Native `SetMasterVolumeLevelScalar(fLevel, NULL)`; the mute flag is independent of the level. -/
def Endpoint.SetMasterVolumeLevelScalar (fLevel : ℚ) (ep : Endpoint) : HRESULT × Endpoint :=
  let r := ep.next
  if FAILED r.1 then r else (r.1, { r.2 with master_scalar := fLevel })

/-- Native `VolumeStepUp(NULL)`: one step up, staying within `[0, step_count]`. -/
def Endpoint.VolumeStepUp (ep : Endpoint) : HRESULT × Endpoint :=
  let r := ep.next
  if FAILED r.1 then r
  else (r.1, { r.2 with current_step :=
    if r.2.current_step < r.2.step_count then r.2.current_step + 1 else r.2.current_step })

/-- Native `VolumeStepDown(NULL)`: one step down, staying within `[0, step_count]`. -/
def Endpoint.VolumeStepDown (ep : Endpoint) : HRESULT × Endpoint :=
  let r := ep.next
  if FAILED r.1 then r
  else (r.1, { r.2 with current_step := r.2.current_step - 1 })

/-- Native `RegisterControlChangeNotify(notification)`. -/
def Endpoint.RegisterControlChangeNotify (notification : Nat) (ep : Endpoint) : HRESULT × Endpoint :=
  let r := ep.next
  if FAILED r.1 then r else (r.1, { r.2 with registered := r.2.registered ++ [notification] })

/-- Native `UnregisterControlChangeNotify(notification)`. -/
def Endpoint.UnregisterControlChangeNotify (notification : Nat) (ep : Endpoint) : HRESULT × Endpoint :=
  let r := ep.next
  if FAILED r.1 then r else (r.1, { r.2 with registered := r.2.registered.erase notification })

/-! ## `VolumeController` (src/windows/volume_controller.cpp) -/

/-- The controller object: its two pointer members (`none` is `NULL`) and the
calls it has issued so far. `volume_notification` holds the identity of the
`VolumeNotification` object, which is the identity of the callback it wraps. -/
structure VolumeController where
  endpoint_volume : Option Endpoint
  volume_notification : Option Nat
  calls : List NativeCall
  deriving DecidableEq

/-- The expression `endpoint_volume->m(...)`: dereference the pointer, run the
native method `m`, record the call. `none` when the pointer is null. -/
def VolumeController.invoke {α : Type} (vc : VolumeController) (c : NativeCall)
    (m : Endpoint → α × Endpoint) : Option (α × VolumeController) :=
  match vc.endpoint_volume with
  | none => none
  | some ep =>
    let r := m ep
    some (r.1, { vc with endpoint_volume := some r.2, calls := vc.calls ++ [c] })

/-- Source: `VolumeController::VolumeController()`. -/
def VolumeController.new : VolumeController :=
  { endpoint_volume := none, volume_notification := none, calls := [] }

/-- Source: `VolumeController::SetMute` (lines 210-225). -/
def SetMute (vc : VolumeController) (is_mute : Bool) : Option (Bool × VolumeController) := do
  let (hr, vc) ←
    if is_mute then vc.invoke (.SetMute true) (Endpoint.SetMute true)
    else vc.invoke (.SetMute false) (Endpoint.SetMute false)
  if FAILED hr then
    return (false, vc)
  return (true, vc)

/-- Source: `VolumeController::GetCurrentVolume` (lines 227-241); the inner
`Option` is the `std::optional<float>` result. -/
def GetCurrentVolume (vc : VolumeController) : Option (Option ℚ × VolumeController) :=
  if vc.endpoint_volume.isSome then do
    let ((hr, current_step, step_count), vc) ←
      vc.invoke .GetVolumeStepInfo Endpoint.GetVolumeStepInfo
    if FAILED hr then
      return (none, vc)
    return (some ((current_step : ℚ) * 1 / (step_count : ℚ)), vc)
  else
    return (some 0, vc)

/-- Source: `VolumeController::SetVolume` (lines 77-92). -/
def SetVolume (vc : VolumeController) (volume : ℚ) : Option (Bool × VolumeController) :=
  if vc.endpoint_volume.isSome then do
    let (unmuted, vc) ← SetMute vc false
    if !unmuted then
      return (false, vc)
    let (hr, vc) ←
      vc.invoke (.SetMasterVolumeLevelScalar volume) (Endpoint.SetMasterVolumeLevelScalar volume)
    if FAILED hr then
      return (false, vc)
    return (true, vc)
  else
    return (true, vc)

/-- Source: `VolumeController::SetVolumeUpBySystemStep` (lines 184-195). -/
def SetVolumeUpBySystemStep (vc : VolumeController) : Option (Bool × VolumeController) :=
  if vc.endpoint_volume.isSome then do
    let (hr, vc) ← vc.invoke .VolumeStepUp Endpoint.VolumeStepUp
    if FAILED hr then
      return (false, vc)
    return (true, vc)
  else
    return (true, vc)

/-- Source: `VolumeController::SetVolumeDownBySystemStep` (lines 197-208). -/
def SetVolumeDownBySystemStep (vc : VolumeController) : Option (Bool × VolumeController) :=
  if vc.endpoint_volume.isSome then do
    let (hr, vc) ← vc.invoke .VolumeStepDown Endpoint.VolumeStepDown
    if FAILED hr then
      return (false, vc)
    return (true, vc)
  else
    return (true, vc)

/-- The loop of `SetMaxVolume` (lines 108-112):
`for (index = current_step; index < step_count; index++)`, entered at `index`. -/
def SetMaxVolume.loop (step_count : Nat) (index : Nat) (vc : VolumeController) :
    Option (Bool × VolumeController) :=
  if index < step_count then
    match SetVolumeUpBySystemStep vc with
    | none => none
    | some (ok, vc) =>
      if !ok then some (false, vc)
      else SetMaxVolume.loop step_count (index + 1) vc
  else
    some (true, vc)
termination_by step_count - index

/-- Source: `VolumeController::SetMaxVolume` (lines 94-116). -/
def SetMaxVolume (vc : VolumeController) : Option (Bool × VolumeController) :=
  if vc.endpoint_volume.isSome then do
    let ((hr, current_step, step_count), vc) ←
      vc.invoke .GetVolumeStepInfo Endpoint.GetVolumeStepInfo
    if FAILED hr then
      return (false, vc)
    let (unmuted, vc) ← SetMute vc false
    if !unmuted then
      return (false, vc)
    SetMaxVolume.loop step_count current_step vc
  else
    return (true, vc)

/-- The loop of `SetMinVolume` (lines 132-136):
`for (index = current_step; index > 0; index--)`, entered at `index`. -/
def SetMinVolume.loop : (index : Nat) → VolumeController → Option (Bool × VolumeController)
  | 0, vc => some (true, vc)
  | index + 1, vc =>
    match SetVolumeDownBySystemStep vc with
    | none => none
    | some (ok, vc) =>
      if !ok then some (false, vc)
      else SetMinVolume.loop index vc

/-- Source: `VolumeController::SetMinVolume` (lines 118-140). -/
def SetMinVolume (vc : VolumeController) : Option (Bool × VolumeController) :=
  if vc.endpoint_volume.isSome then do
    let ((hr, current_step, _step_count), vc) ←
      vc.invoke .GetVolumeStepInfo Endpoint.GetVolumeStepInfo
    if FAILED hr then
      return (false, vc)
    let (unmuted, vc) ← SetMute vc false
    if !unmuted then
      return (false, vc)
    SetMinVolume.loop current_step vc
  else
    return (true, vc)

/-- Source: `VolumeController::SetVolumeUp` (lines 142-161). -/
def SetVolumeUp (vc : VolumeController) (step : ℚ) : Option (Bool × VolumeController) :=
  if vc.endpoint_volume.isSome then do
    let (current_volume, vc) ← GetCurrentVolume vc
    match current_volume with
    | none => return (false, vc)
    | some volume =>
      let target_step : ℚ := if (1 - volume) < step then 1 else volume + step
      let (hr, vc) ← vc.invoke (.SetMasterVolumeLevelScalar target_step)
        (Endpoint.SetMasterVolumeLevelScalar target_step)
      if FAILED hr then
        return (false, vc)
      return (true, vc)
  else
    return (true, vc)

/-- Source: `VolumeController::SetVolumeDown` (lines 163-182). -/
def SetVolumeDown (vc : VolumeController) (step : ℚ) : Option (Bool × VolumeController) :=
  if vc.endpoint_volume.isSome then do
    let (current_volume, vc) ← GetCurrentVolume vc
    match current_volume with
    | none => return (false, vc)
    | some volume =>
      let target_step : ℚ := if volume < step then 0 else volume - step
      let (hr, vc) ← vc.invoke (.SetMasterVolumeLevelScalar target_step)
        (Endpoint.SetMasterVolumeLevelScalar target_step)
      if FAILED hr then
        return (false, vc)
      return (true, vc)
  else
    return (true, vc)

/-- Source: `VolumeController::RegisterNotification` (lines 41-57). An empty
`VolumeCallback` is `none`; `new VolumeNotification(callback)` yields the
object identified by the callback. -/
def RegisterNotification (vc : VolumeController) (callback : Option Nat) :
    Option (Bool × VolumeController) :=
  match callback with
  | none => some (false, vc)
  | some cb =>
    if vc.endpoint_volume.isSome then do
      let vc := { vc with volume_notification := some cb }
      let (hr, vc) ← vc.invoke (.RegisterControlChangeNotify cb)
        (Endpoint.RegisterControlChangeNotify cb)
      if FAILED hr then
        return (false, vc)
      return (true, vc)
    else
      return (true, vc)

/-- Source: `VolumeController::DisposeNotification` (lines 68-75). The function
is `void`; `volume_notification->Release()` is recorded as a call and the
member pointer is left as it is, as in the source. -/
def DisposeNotification (vc : VolumeController) : Option VolumeController :=
  match vc.volume_notification with
  | none => some vc
  | some n => do
    let vc ←
      if vc.endpoint_volume.isSome then do
        let (_, vc) ← vc.invoke (.UnregisterControlChangeNotify n)
          (Endpoint.UnregisterControlChangeNotify n)
        pure vc
      else
        pure vc
    return { vc with calls := vc.calls ++ [.NotificationRelease n] }

/-! ## The Linux plugin (src/linux/flutter_volume_controller_plugin.cc) -/

/-- Modelled from the spec: the `AlsaCard` object of `alsa_card.h`, whose
definition is not among the sources. `volume` is the level the card reports,
`volume_reads` counts the reads of that level, `watch_available` tells whether
registering with the native notification API succeeds, `watching` whether the
card is being watched, `callback_installed` whether an event callback has been
installed. -/
structure AlsaCard where
  volume : ℚ
  volume_reads : Nat
  watch_available : Bool
  watching : Bool
  callback_installed : Bool
  deriving DecidableEq

/-- Modelled from the spec: `alsa_card_add_watch`, absent from the sources; the
registration with the native notification API, which may fail and then changes
nothing. -/
def alsa_card_add_watch (card : AlsaCard) : Bool × AlsaCard :=
  if card.watch_available then (true, { card with watching := true }) else (false, card)

/-- Modelled from the spec: `alsa_card_remove_watch`, absent from the sources;
deregisters the native callback, idempotent, safe when never subscribed. -/
def alsa_card_remove_watch (card : AlsaCard) : AlsaCard :=
  { card with watching := false }

/-- Modelled from the spec: `alsa_card_install_callback`, absent from the
sources; installs the single native callback. -/
def alsa_card_install_callback (card : AlsaCard) : AlsaCard :=
  { card with callback_installed := true }

/-- Modelled from the spec: `alsa_card_get_volume`, absent from the sources;
reads the current level of the card; the read is counted. -/
def alsa_card_get_volume (card : AlsaCard) : ℚ × AlsaCard :=
  (card.volume, { card with volume_reads := card.volume_reads + 1 })

/-- The `enum alsa_event` values the switch of `on_alsa_event` tells apart;
`other` is any value that reaches its `default` label. -/
inductive alsa_event where
  | ALSA_CARD_ERROR
  | ALSA_CARD_DISCONNECTED
  | ALSA_CARD_VALUES_CHANGED
  | other (value : Nat)
  deriving DecidableEq

/-- What the consumer of the event channel can receive (spec, Change Event). -/
inductive ChangeEvent where
  | VolumeChanged (new_level : ℚ)
  | DeviceError
  | DeviceDisconnected
  deriving DecidableEq

/-- The error response of `fl_method_error_response_new(ERROR_CODE_DEFAULT,
ERROR_MSG_REGISTER_LISTENER, NULL)`, the only one the callbacks build. -/
inductive FlMethodErrorResponse where
  | register_listener_failed
  deriving DecidableEq

/-- Source: `struct _FlutterVolumeControllerPlugin`. `event_channel` lists what
`fl_event_channel_send` has sent, `critical_log` the `g_critical` messages,
both oldest first. -/
structure FlutterVolumeControllerPlugin where
  send_events : Bool
  card : Option AlsaCard
  event_channel : List ChangeEvent
  critical_log : List String
  deriving DecidableEq

/-- Source: `on_alsa_values_changed` (lines 70-77); `none` when `self->card`
is null, which the helper would dereference. -/
def on_alsa_values_changed (self : FlutterVolumeControllerPlugin) :
    Option FlutterVolumeControllerPlugin :=
  match self.card with
  | none => none
  | some card =>
    let read := alsa_card_get_volume card
    some { self with card := some read.2,
                     event_channel := self.event_channel ++ [.VolumeChanged read.1] }

/-- Source: `on_alsa_event` (lines 79-100). -/
def on_alsa_event (event : alsa_event) (self : FlutterVolumeControllerPlugin) :
    Option FlutterVolumeControllerPlugin :=
  if !self.send_events then
    some self
  else
    match event with
    | .ALSA_CARD_ERROR =>
      some { self with critical_log := self.critical_log ++ ["alsa card error"] }
    | .ALSA_CARD_DISCONNECTED =>
      some { self with critical_log := self.critical_log ++ ["alsa card disconnected"] }
    | .ALSA_CARD_VALUES_CHANGED =>
      on_alsa_values_changed self
    | .other _ =>
      some { self with critical_log := self.critical_log ++ ["unhandled alsa event"] }

/-- Source: `event_listen_cb` (lines 117-134); the first component is the
returned response, `none` being `NULL`. -/
def event_listen_cb (self : FlutterVolumeControllerPlugin) :
    Option FlMethodErrorResponse × FlutterVolumeControllerPlugin :=
  match self.card with
  | none => (some .register_listener_failed, self)
  | some card =>
    let watch := alsa_card_add_watch card
    if watch.1 == false then
      (some .register_listener_failed, { self with card := some watch.2 })
    else
      let card := alsa_card_install_callback watch.2
      (none, { self with card := some card, send_events := true })

/-- Source: `event_cancel_cb` (lines 136-147). -/
def event_cancel_cb (self : FlutterVolumeControllerPlugin) :
    Option FlMethodErrorResponse × FlutterVolumeControllerPlugin :=
  let self :=
    match self.card with
    | some card => { self with card := some (alsa_card_remove_watch card) }
    | none => self
  (none, { self with send_events := false })

/-! ## Sample states -/

/-- An endpoint at step 40 of 100, unmuted, every call succeeding. -/
def sampleEndpoint : Endpoint :=
  { current_step := 40, step_count := 100, muted := false, master_scalar := 2 / 5,
    registered := [], hresults := [] }

/-- A controller bound to `sampleEndpoint`, nothing registered, no call issued. -/
def sampleBound : VolumeController :=
  { endpoint_volume := some sampleEndpoint, volume_notification := none, calls := [] }

/-- A muted endpoint at step 3 of 5. -/
def mutedEndpoint : Endpoint :=
  { current_step := 3, step_count := 5, muted := true, master_scalar := 3 / 5,
    registered := [], hresults := [] }

/-- A controller bound to `mutedEndpoint`. -/
def mutedBound : VolumeController :=
  { endpoint_volume := some mutedEndpoint, volume_notification := none, calls := [] }

/-- A controller bound to an endpoint whose next call fails with `E_FAIL`. -/
def failingBound : VolumeController :=
  { endpoint_volume := some { sampleEndpoint with hresults := [E_FAIL] },
    volume_notification := none, calls := [] }

/-- A bound controller holding notification object 7, registered with the endpoint. -/
def subscribedBound : VolumeController :=
  { endpoint_volume := some { sampleEndpoint with registered := [7] },
    volume_notification := some 7, calls := [] }

/-- A working card at level one half. -/
def sampleCard : AlsaCard :=
  { volume := 1 / 2, volume_reads := 0, watch_available := true, watching := true,
    callback_installed := true }

/-- A plugin with an active subscription on `sampleCard`. -/
def activePlugin : FlutterVolumeControllerPlugin :=
  { send_events := true, card := some sampleCard, event_channel := [], critical_log := [] }

/-- A plugin whose card could not be opened. -/
def cardlessPlugin : FlutterVolumeControllerPlugin :=
  { send_events := false, card := none, event_channel := [], critical_log := [] }

/-! ## Helper lemmas: one native call on a bound controller -/

theorem SetMute_bound (vc : VolumeController) (ep : Endpoint)
    (h : vc.endpoint_volume = some ep) (b : Bool) :
    SetMute vc b = some (!FAILED ep.next.1,
      { vc with endpoint_volume := some (Endpoint.SetMute b ep).2,
                calls := vc.calls ++ [.SetMute b] }) := by
  cases b <;> simp [SetMute, VolumeController.invoke, h, Endpoint.SetMute] <;>
    cases hf : FAILED ep.next.1 <;> simp [hf]

theorem SetVolume_bound (vc : VolumeController) (ep : Endpoint)
    (h : vc.endpoint_volume = some ep) (volume : ℚ) :
    SetVolume vc volume =
      if FAILED ep.next.1 then
        some (false, { vc with endpoint_volume := some ep.next.2,
                               calls := vc.calls ++ [.SetMute false] })
      else
        some (!FAILED (Endpoint.SetMute false ep).2.next.1,
          { vc with
            endpoint_volume :=
              some (Endpoint.SetMasterVolumeLevelScalar volume (Endpoint.SetMute false ep).2).2,
            calls := vc.calls ++ [.SetMute false, .SetMasterVolumeLevelScalar volume] }) := by
  cases hf : FAILED ep.next.1 <;>
    simp [SetVolume, h, SetMute_bound vc ep h, hf, VolumeController.invoke, Endpoint.SetMute,
      Endpoint.SetMasterVolumeLevelScalar]
  cases hg : FAILED { ep.next.2 with muted := false }.next.1 <;> simp [hg]

theorem GetCurrentVolume_bound (vc : VolumeController) (ep : Endpoint)
    (h : vc.endpoint_volume = some ep) :
    GetCurrentVolume vc =
      some (if FAILED ep.next.1 then none
            else some ((ep.current_step : ℚ) / (ep.step_count : ℚ)),
        { vc with endpoint_volume := some ep.next.2,
                  calls := vc.calls ++ [.GetVolumeStepInfo] }) := by
  cases hf : FAILED ep.next.1 <;>
    simp [GetCurrentVolume, h, hf, VolumeController.invoke, Endpoint.GetVolumeStepInfo]

theorem SetMasterVolumeLevelScalar_status (fLevel : ℚ) (ep : Endpoint) :
    (Endpoint.SetMasterVolumeLevelScalar fLevel ep).1 = ep.next.1 := by
  cases hf : FAILED ep.next.1 <;> simp [Endpoint.SetMasterVolumeLevelScalar, hf]

theorem min_one_add (volume step : ℚ) :
    (if (1 - volume) < step then (1 : ℚ) else volume + step) = min 1 (volume + step) := by
  by_cases h : (1 - volume) < step
  · rw [if_pos h, min_eq_left]; linarith
  · rw [if_neg h, min_eq_right]; linarith

theorem max_zero_sub (volume step : ℚ) :
    (if volume < step then (0 : ℚ) else volume - step) = max 0 (volume - step) := by
  by_cases h : volume < step
  · rw [if_pos h, max_eq_left]; linarith
  · rw [if_neg h, max_eq_right]; linarith

theorem SetVolumeUp_bound (vc : VolumeController) (ep : Endpoint)
    (h : vc.endpoint_volume = some ep) (step : ℚ) :
    SetVolumeUp vc step =
      if FAILED ep.next.1 then
        some (false, { vc with endpoint_volume := some ep.next.2,
                               calls := vc.calls ++ [.GetVolumeStepInfo] })
      else
        some (!FAILED ep.next.2.next.1,
          { vc with
            endpoint_volume := some (Endpoint.SetMasterVolumeLevelScalar
              (min 1 ((ep.current_step : ℚ) / (ep.step_count : ℚ) + step)) ep.next.2).2,
            calls := vc.calls ++ [.GetVolumeStepInfo, .SetMasterVolumeLevelScalar
              (min 1 ((ep.current_step : ℚ) / (ep.step_count : ℚ) + step))] }) := by
  cases hf : FAILED ep.next.1 <;>
    simp [SetVolumeUp, h, GetCurrentVolume_bound vc ep h, hf, VolumeController.invoke,
      min_one_add]
  cases hg : FAILED ep.next.2.next.1 <;> simp [hg, SetMasterVolumeLevelScalar_status]

theorem SetVolumeDown_bound (vc : VolumeController) (ep : Endpoint)
    (h : vc.endpoint_volume = some ep) (step : ℚ) :
    SetVolumeDown vc step =
      if FAILED ep.next.1 then
        some (false, { vc with endpoint_volume := some ep.next.2,
                               calls := vc.calls ++ [.GetVolumeStepInfo] })
      else
        some (!FAILED ep.next.2.next.1,
          { vc with
            endpoint_volume := some (Endpoint.SetMasterVolumeLevelScalar
              (max 0 ((ep.current_step : ℚ) / (ep.step_count : ℚ) - step)) ep.next.2).2,
            calls := vc.calls ++ [.GetVolumeStepInfo, .SetMasterVolumeLevelScalar
              (max 0 ((ep.current_step : ℚ) / (ep.step_count : ℚ) - step))] }) := by
  cases hf : FAILED ep.next.1 <;>
    simp [SetVolumeDown, h, GetCurrentVolume_bound vc ep h, hf, VolumeController.invoke,
      max_zero_sub]
  cases hg : FAILED ep.next.2.next.1 <;> simp [hg, SetMasterVolumeLevelScalar_status]

theorem SetMasterVolumeLevelScalar_muted (fLevel : ℚ) (ep : Endpoint) :
    (Endpoint.SetMasterVolumeLevelScalar fLevel ep).2.muted = ep.muted := by
  cases hf : FAILED ep.next.1 <;> simp [Endpoint.SetMasterVolumeLevelScalar, hf] <;>
    cases hh : ep.hresults <;> simp [Endpoint.next, hh]

theorem SetMute_muted (b : Bool) (ep : Endpoint) (hf : FAILED ep.next.1 = false) :
    (Endpoint.SetMute b ep).2.muted = b := by
  simp [Endpoint.SetMute, hf]

/-! ## The claims -/

/-- C1 (counterexample): on the freshly constructed, unbound controller
`SetVolume` returns true, not false, and `GetCurrentVolume` returns the level
0 rather than no value. -/
theorem unbound_reports_success :
    VolumeController.new.endpoint_volume = none ∧
    SetVolume VolumeController.new (1 / 2) = some (true, VolumeController.new) ∧
    SetVolume VolumeController.new (1 / 2) ≠ some (false, VolumeController.new) ∧
    GetCurrentVolume VolumeController.new = some (some 0, VolumeController.new) := by
  simp [SetVolume, GetCurrentVolume, VolumeController.new]

/-- C1 (amended): while `endpoint_volume` is null, `SetVolume`, `SetVolumeUp`,
`SetVolumeDown`, `SetMaxVolume` and `SetMinVolume` each return true and
`GetCurrentVolume` returns the level 0; each leaves the controller, its call
record included, exactly as it was, so no native call is issued. -/
theorem unbound_is_noop_success (vc : VolumeController) (level step : ℚ)
    (h : vc.endpoint_volume = none) :
    SetVolume vc level = some (true, vc) ∧ SetVolumeUp vc step = some (true, vc) ∧
    SetVolumeDown vc step = some (true, vc) ∧ SetMaxVolume vc = some (true, vc) ∧
    SetMinVolume vc = some (true, vc) ∧ GetCurrentVolume vc = some (some 0, vc) := by
  simp [SetVolume, SetVolumeUp, SetVolumeDown, SetMaxVolume, SetMinVolume, GetCurrentVolume, h]

/-- Witness of C1 (amended) on the freshly constructed controller. -/
theorem unbound_is_noop_success_witness :
    VolumeController.new.endpoint_volume = none ∧
    SetVolume VolumeController.new (1 / 2) = some (true, VolumeController.new) ∧
    SetVolumeUp VolumeController.new (3 / 20) = some (true, VolumeController.new) ∧
    SetVolumeDown VolumeController.new (3 / 20) = some (true, VolumeController.new) ∧
    SetMaxVolume VolumeController.new = some (true, VolumeController.new) ∧
    SetMinVolume VolumeController.new = some (true, VolumeController.new) ∧
    GetCurrentVolume VolumeController.new = some (some 0, VolumeController.new) :=
  ⟨rfl, unbound_is_noop_success VolumeController.new (1 / 2) (3 / 20) rfl⟩

/-- C2 (counterexample): on a bound controller `SetVolume 2` succeeds and
passes 2 to the native scalar write, not `min 1 (max 0 2) = 1`. -/
theorem SetVolume_passes_two :
    ∃ vc, SetVolume sampleBound 2 = some (true, vc) ∧
      vc.calls = [.SetMute false, .SetMasterVolumeLevelScalar 2] ∧
      (2 : ℚ) ≠ min 1 (max 0 2) ∧
      NativeCall.SetMasterVolumeLevelScalar (min 1 (max 0 2)) ∉ vc.calls := by
  rw [SetVolume_bound sampleBound sampleEndpoint rfl]
  have hf : FAILED sampleEndpoint.next.1 = false := by decide
  have hg : FAILED (Endpoint.SetMute false sampleEndpoint).2.next.1 = false := by decide
  rw [hf, hg]
  refine ⟨_, rfl, by simp [sampleBound], by norm_num, ?_⟩
  have h1 : min (1 : ℚ) (max 0 2) = 1 := by norm_num
  rw [h1]
  simp [sampleBound]

/-- C2 (amended): on a bound controller `SetVolume` issues the unmute and then,
when the unmute succeeded, one scalar write whose argument is the input level
itself, unclamped; that argument is `min 1 (max 0 level)` when the input
already lies in `[0, 1]`. -/
theorem SetVolume_writes_input (vc : VolumeController) (ep : Endpoint) (level : ℚ)
    (h : vc.endpoint_volume = some ep) :
    ∃ ok vc', SetVolume vc level = some (ok, vc') ∧
      vc'.calls = vc.calls ++ (NativeCall.SetMute false ::
        if FAILED ep.next.1 then [] else [.SetMasterVolumeLevelScalar level]) ∧
      (0 ≤ level → level ≤ 1 → level = min 1 (max 0 level)) := by
  rw [SetVolume_bound vc ep h]
  cases hf : FAILED ep.next.1
  · refine ⟨_, _, rfl, by simp, ?_⟩
    intro h0 h1
    rw [max_eq_right h0, min_eq_right h1]
  · refine ⟨_, _, rfl, by simp, ?_⟩
    intro h0 h1
    rw [max_eq_right h0, min_eq_right h1]

/-- Witness of C2 (amended): level 3/4 on the sample controller. -/
theorem SetVolume_writes_input_witness :
    ∃ ok vc', SetVolume sampleBound (3 / 4) = some (ok, vc') ∧
      vc'.calls = [.SetMute false, .SetMasterVolumeLevelScalar (3 / 4)] := by
  obtain ⟨ok, vc', h1, h2, _⟩ := SetVolume_writes_input sampleBound sampleEndpoint (3 / 4) rfl
  refine ⟨ok, vc', h1, ?_⟩
  rw [h2]
  simp [sampleBound, sampleEndpoint, Endpoint.next, FAILED, S_OK]

/-- C3: on a bound controller whose current level `v = current_step / step_count`
lies in `[0, 1]`, `SetVolumeUp step` reads the step pair and, when the read
succeeded, issues one scalar write whose argument is `min 1 (v + step)`, a
value never greater than 1. -/
theorem SetVolumeUp_saturates (vc : VolumeController) (ep : Endpoint) (step : ℚ)
    (h : vc.endpoint_volume = some ep) (_hpos : 0 < ep.step_count)
    (_hle : ep.current_step ≤ ep.step_count) :
    ∃ ok vc', SetVolumeUp vc step = some (ok, vc') ∧
      vc'.calls = vc.calls ++ (NativeCall.GetVolumeStepInfo ::
        if FAILED ep.next.1 then []
        else [.SetMasterVolumeLevelScalar
          (min 1 ((ep.current_step : ℚ) / (ep.step_count : ℚ) + step))]) ∧
      min 1 ((ep.current_step : ℚ) / (ep.step_count : ℚ) + step) ≤ 1 := by
  rw [SetVolumeUp_bound vc ep h]
  cases hf : FAILED ep.next.1
  · exact ⟨_, _, rfl, by simp, min_le_left _ _⟩
  · exact ⟨_, _, rfl, by simp, min_le_left _ _⟩

/-- Witness of C3: from level 40/100, step 0.15 writes 0.55 and step 0.60
writes 1. -/
theorem SetVolumeUp_saturates_witness :
    (∃ ok vc', SetVolumeUp sampleBound (3 / 20) = some (ok, vc') ∧
      vc'.calls = [.GetVolumeStepInfo, .SetMasterVolumeLevelScalar (11 / 20)]) ∧
    (∃ ok vc', SetVolumeUp sampleBound (3 / 5) = some (ok, vc') ∧
      vc'.calls = [.GetVolumeStepInfo, .SetMasterVolumeLevelScalar 1]) := by
  have hf : FAILED sampleEndpoint.next.1 = false := by decide
  constructor
  · obtain ⟨ok, vc', h1, h2, _⟩ := SetVolumeUp_saturates sampleBound sampleEndpoint (3 / 20) rfl
      (by decide) (by decide)
    refine ⟨ok, vc', h1, ?_⟩
    rw [h2, hf]
    norm_num [sampleBound, sampleEndpoint]
  · obtain ⟨ok, vc', h1, h2, _⟩ := SetVolumeUp_saturates sampleBound sampleEndpoint (3 / 5) rfl
      (by decide) (by decide)
    refine ⟨ok, vc', h1, ?_⟩
    rw [h2, hf]
    norm_num [sampleBound, sampleEndpoint]

/-- C4: on a bound controller whose current level `v = current_step / step_count`
lies in `[0, 1]`, `SetVolumeDown step` reads the step pair and, when the read
succeeded, issues one scalar write whose argument is `max 0 (v - step)`, a
value never less than 0. -/
theorem SetVolumeDown_saturates (vc : VolumeController) (ep : Endpoint) (step : ℚ)
    (h : vc.endpoint_volume = some ep) (_hpos : 0 < ep.step_count)
    (_hle : ep.current_step ≤ ep.step_count) :
    ∃ ok vc', SetVolumeDown vc step = some (ok, vc') ∧
      vc'.calls = vc.calls ++ (NativeCall.GetVolumeStepInfo ::
        if FAILED ep.next.1 then []
        else [.SetMasterVolumeLevelScalar
          (max 0 ((ep.current_step : ℚ) / (ep.step_count : ℚ) - step))]) ∧
      0 ≤ max 0 ((ep.current_step : ℚ) / (ep.step_count : ℚ) - step) := by
  rw [SetVolumeDown_bound vc ep h]
  cases hf : FAILED ep.next.1
  · exact ⟨_, _, rfl, by simp, le_max_left _ _⟩
  · exact ⟨_, _, rfl, by simp, le_max_left _ _⟩

/-- Witness of C4: from level 40/100, step 0.15 writes 0.25 and step 0.60
writes 0. -/
theorem SetVolumeDown_saturates_witness :
    (∃ ok vc', SetVolumeDown sampleBound (3 / 20) = some (ok, vc') ∧
      vc'.calls = [.GetVolumeStepInfo, .SetMasterVolumeLevelScalar (1 / 4)]) ∧
    (∃ ok vc', SetVolumeDown sampleBound (3 / 5) = some (ok, vc') ∧
      vc'.calls = [.GetVolumeStepInfo, .SetMasterVolumeLevelScalar 0]) := by
  have hf : FAILED sampleEndpoint.next.1 = false := by decide
  constructor
  · obtain ⟨ok, vc', h1, h2, _⟩ := SetVolumeDown_saturates sampleBound sampleEndpoint (3 / 20) rfl
      (by decide) (by decide)
    refine ⟨ok, vc', h1, ?_⟩
    rw [h2, hf]
    norm_num [sampleBound, sampleEndpoint]
  · obtain ⟨ok, vc', h1, h2, _⟩ := SetVolumeDown_saturates sampleBound sampleEndpoint (3 / 5) rfl
      (by decide) (by decide)
    refine ⟨ok, vc', h1, ?_⟩
    rw [h2, hf]
    norm_num [sampleBound, sampleEndpoint]

/-- C6: on a bound controller, muted or not, `SetVolume level` with `level > 0`
issues the native unmute before the native volume write; when the unmute fails
it returns false and issues no volume write; whenever it returns true the
endpoint is not muted. -/
theorem SetVolume_unmutes_first (vc : VolumeController) (ep : Endpoint) (level : ℚ)
    (h : vc.endpoint_volume = some ep) (_hlevel : 0 < level) :
    ∃ ok vc', SetVolume vc level = some (ok, vc') ∧
      (FAILED ep.next.1 = true →
        ok = false ∧ vc'.calls = vc.calls ++ [NativeCall.SetMute false]) ∧
      (FAILED ep.next.1 = false →
        vc'.calls = vc.calls ++
          [NativeCall.SetMute false, NativeCall.SetMasterVolumeLevelScalar level]) ∧
      (ok = true → ∃ ep', vc'.endpoint_volume = some ep' ∧ ep'.muted = false) := by
  rw [SetVolume_bound vc ep h]
  cases hf : FAILED ep.next.1
  · refine ⟨_, _, rfl, by simp, by simp, ?_⟩
    intro _
    exact ⟨_, rfl, by rw [SetMasterVolumeLevelScalar_muted, SetMute_muted false ep hf]⟩
  · refine ⟨_, _, rfl, by simp, by simp, ?_⟩
    intro hok
    simp at hok

/-- Witness of C6: level 1/2 on a muted endpoint returns true and leaves it
unmuted, the unmute recorded before the write. -/
theorem SetVolume_unmutes_first_witness :
    mutedEndpoint.muted = true ∧
    ∃ vc' ep', SetVolume mutedBound (1 / 2) = some (true, vc') ∧
      vc'.calls = [.SetMute false, .SetMasterVolumeLevelScalar (1 / 2)] ∧
      vc'.endpoint_volume = some ep' ∧ ep'.muted = false := by
  have hf : FAILED mutedEndpoint.next.1 = false := by decide
  obtain ⟨ok, vc', h1, _, h3, h4⟩ :=
    SetVolume_unmutes_first mutedBound mutedEndpoint (1 / 2) rfl (by norm_num)
  have hok : ok = true := by
    rw [SetVolume_bound mutedBound mutedEndpoint rfl, hf] at h1
    have hg : FAILED (Endpoint.SetMute false mutedEndpoint).2.next.1 = false := by decide
    rw [hg] at h1
    simp at h1
    exact h1.1
  subst hok
  obtain ⟨ep', h5, h6⟩ := h4 rfl
  exact ⟨rfl, vc', ep', h1, by simpa [mutedBound] using h3 hf, h5, h6⟩

/-! ## Helper lemmas: the step walks -/

theorem next_fields (ep : Endpoint) :
    ep.next.2.current_step = ep.current_step ∧ ep.next.2.step_count = ep.step_count ∧
    ep.next.2.muted = ep.muted ∧ ep.next.2.hresults = ep.hresults.tail := by
  cases hh : ep.hresults <;> simp [Endpoint.next, hh]

theorem next_succeeds (ep : Endpoint) (hall : ∀ hr ∈ ep.hresults, FAILED hr = false) :
    FAILED ep.next.1 = false ∧ ∀ hr ∈ ep.next.2.hresults, FAILED hr = false := by
  cases hh : ep.hresults with
  | nil => simp [Endpoint.next, hh, FAILED, S_OK]
  | cons hr rest =>
    rw [hh] at hall
    simp only [Endpoint.next, hh]
    exact ⟨hall hr (List.mem_cons_self _ _), fun x hx => hall x (List.mem_cons_of_mem _ hx)⟩

theorem SetMute_fields (b : Bool) (ep : Endpoint) :
    (Endpoint.SetMute b ep).2.current_step = ep.current_step ∧
    (Endpoint.SetMute b ep).2.step_count = ep.step_count ∧
    (Endpoint.SetMute b ep).2.hresults = ep.hresults.tail := by
  obtain ⟨h1, h2, _, h4⟩ := next_fields ep
  cases hf : FAILED ep.next.1 <;> simp [Endpoint.SetMute, hf, h1, h2, h4]

theorem VolumeStepUp_fields (ep : Endpoint) (hf : FAILED ep.next.1 = false) :
    (Endpoint.VolumeStepUp ep).2.current_step =
      (if ep.current_step < ep.step_count then ep.current_step + 1 else ep.current_step) ∧
    (Endpoint.VolumeStepUp ep).2.step_count = ep.step_count ∧
    (Endpoint.VolumeStepUp ep).2.muted = ep.muted ∧
    (Endpoint.VolumeStepUp ep).2.hresults = ep.hresults.tail := by
  obtain ⟨h1, h2, h3, h4⟩ := next_fields ep
  simp [Endpoint.VolumeStepUp, hf, h1, h2, h3, h4]

theorem VolumeStepDown_fields (ep : Endpoint) (hf : FAILED ep.next.1 = false) :
    (Endpoint.VolumeStepDown ep).2.current_step = ep.current_step - 1 ∧
    (Endpoint.VolumeStepDown ep).2.step_count = ep.step_count ∧
    (Endpoint.VolumeStepDown ep).2.muted = ep.muted ∧
    (Endpoint.VolumeStepDown ep).2.hresults = ep.hresults.tail := by
  obtain ⟨h1, h2, h3, h4⟩ := next_fields ep
  simp [Endpoint.VolumeStepDown, hf, h1, h2, h3, h4]

theorem SetVolumeUpBySystemStep_bound (vc : VolumeController) (ep : Endpoint)
    (h : vc.endpoint_volume = some ep) :
    SetVolumeUpBySystemStep vc = some (!FAILED ep.next.1,
      { vc with endpoint_volume := some (Endpoint.VolumeStepUp ep).2,
                calls := vc.calls ++ [.VolumeStepUp] }) := by
  cases hf : FAILED ep.next.1 <;>
    simp [SetVolumeUpBySystemStep, h, VolumeController.invoke, Endpoint.VolumeStepUp, hf]

theorem SetVolumeDownBySystemStep_bound (vc : VolumeController) (ep : Endpoint)
    (h : vc.endpoint_volume = some ep) :
    SetVolumeDownBySystemStep vc = some (!FAILED ep.next.1,
      { vc with endpoint_volume := some (Endpoint.VolumeStepDown ep).2,
                calls := vc.calls ++ [.VolumeStepDown] }) := by
  cases hf : FAILED ep.next.1 <;>
    simp [SetVolumeDownBySystemStep, h, VolumeController.invoke, Endpoint.VolumeStepDown, hf]

theorem SetMaxVolume_loop_spec (step_count : Nat) :
    ∀ (n index : Nat) (vc : VolumeController) (ep : Endpoint),
      vc.endpoint_volume = some ep → ep.step_count = step_count → ep.current_step = index →
      index + n = step_count →
      ∃ ok vc' ep', SetMaxVolume.loop step_count index vc = some (ok, vc') ∧
        vc'.endpoint_volume = some ep' ∧
        ((∀ hr ∈ ep.hresults, FAILED hr = false) → ok = true) ∧
        (ok = true → ep'.current_step = step_count ∧ ep'.step_count = step_count ∧
          ep'.muted = ep.muted ∧
          vc'.calls = vc.calls ++ List.replicate n NativeCall.VolumeStepUp) := by
  intro n
  induction n with
  | zero =>
    intro index vc ep h hsc hcs hn
    rw [SetMaxVolume.loop]
    have : ¬ index < step_count := by omega
    rw [if_neg this]
    exact ⟨true, vc, ep, rfl, h, fun _ => rfl, fun _ => ⟨by omega, hsc, rfl, by simp⟩⟩
  | succ n ih =>
    intro index vc ep h hsc hcs hn
    rw [SetMaxVolume.loop]
    have hlt : index < step_count := by omega
    rw [if_pos hlt, SetVolumeUpBySystemStep_bound vc ep h]
    cases hf : FAILED ep.next.1
    · obtain ⟨f1, f2, f3, f4⟩ := VolumeStepUp_fields ep hf
      have hcs' : (Endpoint.VolumeStepUp ep).2.current_step = index + 1 := by
        rw [f1, if_pos (by omega), hcs]
      obtain ⟨ok, vc', ep', e1, e2, e3, e4⟩ :=
        ih (index + 1)
          { vc with endpoint_volume := some (Endpoint.VolumeStepUp ep).2,
                    calls := vc.calls ++ [.VolumeStepUp] }
          (Endpoint.VolumeStepUp ep).2 rfl (by rw [f2, hsc]) hcs' (by omega)
      refine ⟨ok, vc', ep', by simpa using e1, e2, ?_, ?_⟩
      · intro hall
        apply e3
        rw [f4]
        exact fun x hx => hall x (List.mem_of_mem_tail hx)
      · intro hok
        obtain ⟨g1, g2, g3, g4⟩ := e4 hok
        refine ⟨g1, g2, by rw [g3, f3], ?_⟩
        rw [g4, List.replicate_succ]
        simp
    · refine ⟨false, _, _, rfl, rfl, ?_, by simp⟩
      intro hall
      have := (next_succeeds ep hall).1
      rw [hf] at this
      cases this

theorem SetMinVolume_loop_spec :
    ∀ (index : Nat) (vc : VolumeController) (ep : Endpoint),
      vc.endpoint_volume = some ep → ep.current_step = index →
      ∃ ok vc' ep', SetMinVolume.loop index vc = some (ok, vc') ∧
        vc'.endpoint_volume = some ep' ∧
        ((∀ hr ∈ ep.hresults, FAILED hr = false) → ok = true) ∧
        (ok = true → ep'.current_step = 0 ∧ ep'.step_count = ep.step_count ∧
          ep'.muted = ep.muted ∧
          vc'.calls = vc.calls ++ List.replicate index NativeCall.VolumeStepDown) := by
  intro index
  induction index with
  | zero =>
    intro vc ep h hcs
    exact ⟨true, vc, ep, rfl, h, fun _ => rfl, fun _ => ⟨hcs, rfl, rfl, by simp⟩⟩
  | succ n ih =>
    intro vc ep h hcs
    rw [SetMinVolume.loop, SetVolumeDownBySystemStep_bound vc ep h]
    cases hf : FAILED ep.next.1
    · obtain ⟨f1, f2, f3, f4⟩ := VolumeStepDown_fields ep hf
      obtain ⟨ok, vc', ep', e1, e2, e3, e4⟩ :=
        ih { vc with endpoint_volume := some (Endpoint.VolumeStepDown ep).2,
                     calls := vc.calls ++ [.VolumeStepDown] }
          (Endpoint.VolumeStepDown ep).2 rfl (by rw [f1, hcs]; rfl)
      refine ⟨ok, vc', ep', by simpa using e1, e2, ?_, ?_⟩
      · intro hall
        apply e3
        rw [f4]
        exact fun x hx => hall x (List.mem_of_mem_tail hx)
      · intro hok
        obtain ⟨g1, g2, g3, g4⟩ := e4 hok
        refine ⟨g1, by rw [g2, f2], by rw [g3, f3], ?_⟩
        rw [g4, List.replicate_succ]
        simp
    · refine ⟨false, _, _, rfl, rfl, ?_, by simp⟩
      intro hall
      have := (next_succeeds ep hall).1
      rw [hf] at this
      cases this

theorem SetMaxVolume_bound (vc : VolumeController) (ep : Endpoint)
    (h : vc.endpoint_volume = some ep) :
    SetMaxVolume vc =
      if FAILED ep.next.1 then
        some (false, { vc with endpoint_volume := some ep.next.2,
                               calls := vc.calls ++ [.GetVolumeStepInfo] })
      else if FAILED ep.next.2.next.1 then
        some (false, { vc with endpoint_volume := some ep.next.2.next.2,
                               calls := vc.calls ++ [.GetVolumeStepInfo, .SetMute false] })
      else
        SetMaxVolume.loop ep.step_count ep.current_step
          { vc with endpoint_volume := some (Endpoint.SetMute false ep.next.2).2,
                    calls := vc.calls ++ [.GetVolumeStepInfo, .SetMute false] } := by
  cases hf : FAILED ep.next.1 <;>
    simp [SetMaxVolume, h, hf, VolumeController.invoke, Endpoint.GetVolumeStepInfo]
  rw [SetMute_bound _ ep.next.2 rfl]
  cases hg : FAILED ep.next.2.next.1 <;> simp [hg, Endpoint.SetMute]

theorem SetMinVolume_bound (vc : VolumeController) (ep : Endpoint)
    (h : vc.endpoint_volume = some ep) :
    SetMinVolume vc =
      if FAILED ep.next.1 then
        some (false, { vc with endpoint_volume := some ep.next.2,
                               calls := vc.calls ++ [.GetVolumeStepInfo] })
      else if FAILED ep.next.2.next.1 then
        some (false, { vc with endpoint_volume := some ep.next.2.next.2,
                               calls := vc.calls ++ [.GetVolumeStepInfo, .SetMute false] })
      else
        SetMinVolume.loop ep.current_step
          { vc with endpoint_volume := some (Endpoint.SetMute false ep.next.2).2,
                    calls := vc.calls ++ [.GetVolumeStepInfo, .SetMute false] } := by
  cases hf : FAILED ep.next.1 <;>
    simp [SetMinVolume, h, hf, VolumeController.invoke, Endpoint.GetVolumeStepInfo]
  rw [SetMute_bound _ ep.next.2 rfl]
  cases hg : FAILED ep.next.2.next.1 <;> simp [hg, Endpoint.SetMute]

/-- C5: on a bound controller whose step pair has `current_step ≤ step_count`,
`SetMaxVolume` and `SetMinVolume` return; they return true when every native
call succeeds; and when `SetMaxVolume` returns true the endpoint is at
`current_step = step_count`, when `SetMinVolume` returns true it is at
`current_step = 0`, the walk having issued, after the step read and the
unmute, one native step call per step between the start and the target. -/
theorem step_walk_reaches_target (vc : VolumeController) (ep : Endpoint)
    (h : vc.endpoint_volume = some ep) (hle : ep.current_step ≤ ep.step_count) :
    (∃ ok vc' ep', SetMaxVolume vc = some (ok, vc') ∧ vc'.endpoint_volume = some ep' ∧
      ((∀ hr ∈ ep.hresults, FAILED hr = false) → ok = true) ∧
      (ok = true → ep'.current_step = ep'.step_count ∧ ep'.step_count = ep.step_count ∧
        vc'.calls = vc.calls ++ [NativeCall.GetVolumeStepInfo, NativeCall.SetMute false] ++
          List.replicate (ep.step_count - ep.current_step) NativeCall.VolumeStepUp)) ∧
    (∃ ok vc' ep', SetMinVolume vc = some (ok, vc') ∧ vc'.endpoint_volume = some ep' ∧
      ((∀ hr ∈ ep.hresults, FAILED hr = false) → ok = true) ∧
      (ok = true → ep'.current_step = 0 ∧ ep'.step_count = ep.step_count ∧
        vc'.calls = vc.calls ++ [NativeCall.GetVolumeStepInfo, NativeCall.SetMute false] ++
          List.replicate ep.current_step NativeCall.VolumeStepDown)) := by
  obtain ⟨n1, n2, _, n4⟩ := next_fields ep
  obtain ⟨m1, m2, m3⟩ := SetMute_fields false ep.next.2
  have hfail : ∀ b : Bool, b = true →
      ((∀ hr ∈ ep.hresults, FAILED hr = false) → b = false) →
      ((∀ hr ∈ ep.hresults, FAILED hr = false) → false = true) := by
    intro b hb himp hall
    rw [himp hall] at hb
    exact hb
  have hall1 : (∀ hr ∈ ep.hresults, FAILED hr = false) → FAILED ep.next.1 = false :=
    fun hall => (next_succeeds ep hall).1
  have hall2 : (∀ hr ∈ ep.hresults, FAILED hr = false) → FAILED ep.next.2.next.1 = false :=
    fun hall => (next_succeeds ep.next.2 (next_succeeds ep hall).2).1
  have hall3 : (∀ hr ∈ ep.hresults, FAILED hr = false) →
      ∀ hr ∈ (Endpoint.SetMute false ep.next.2).2.hresults, FAILED hr = false := by
    intro hall hr hmem
    rw [m3, n4] at hmem
    exact hall hr (List.mem_of_mem_tail (List.mem_of_mem_tail hmem))
  constructor
  · rw [SetMaxVolume_bound vc ep h]
    cases hf : FAILED ep.next.1
    · cases hg : FAILED ep.next.2.next.1
      · obtain ⟨ok, vc', ep', e1, e2, e3, e4⟩ :=
          SetMaxVolume_loop_spec ep.step_count (ep.step_count - ep.current_step) ep.current_step
            { vc with endpoint_volume := some (Endpoint.SetMute false ep.next.2).2,
                      calls := vc.calls ++ [.GetVolumeStepInfo, .SetMute false] }
            (Endpoint.SetMute false ep.next.2).2 rfl (by rw [m2, n2]) (by rw [m1, n1])
            (by omega)
        refine ⟨ok, vc', ep', by simpa using e1, e2, fun hall => e3 (hall3 hall), ?_⟩
        intro hok
        obtain ⟨g1, g2, _, g4⟩ := e4 hok
        exact ⟨by rw [g1, g2], g2, by rw [g4]⟩
      · exact ⟨false, _, _, rfl, rfl, hfail _ hg hall2, by simp⟩
    · exact ⟨false, _, _, rfl, rfl, hfail _ hf hall1, by simp⟩
  · rw [SetMinVolume_bound vc ep h]
    cases hf : FAILED ep.next.1
    · cases hg : FAILED ep.next.2.next.1
      · obtain ⟨ok, vc', ep', e1, e2, e3, e4⟩ :=
          SetMinVolume_loop_spec ep.current_step
            { vc with endpoint_volume := some (Endpoint.SetMute false ep.next.2).2,
                      calls := vc.calls ++ [.GetVolumeStepInfo, .SetMute false] }
            (Endpoint.SetMute false ep.next.2).2 rfl (by rw [m1, n1])
        refine ⟨ok, vc', ep', by simpa using e1, e2, fun hall => e3 (hall3 hall), ?_⟩
        intro hok
        obtain ⟨g1, g2, _, g4⟩ := e4 hok
        exact ⟨g1, by rw [g2, m2, n2], by rw [g4]⟩
      · exact ⟨false, _, _, rfl, rfl, hfail _ hg hall2, by simp⟩
    · exact ⟨false, _, _, rfl, rfl, hfail _ hf hall1, by simp⟩

/-- Witness of C5: from step 3 of 5, `SetMaxVolume` returns true after two step-up
calls with the endpoint at step 5, and `SetMinVolume` returns true after three
step-down calls with the endpoint at step 0. -/
theorem step_walk_reaches_target_witness :
    (∃ vc' ep', SetMaxVolume mutedBound = some (true, vc') ∧
      vc'.endpoint_volume = some ep' ∧ ep'.current_step = 5 ∧ ep'.step_count = 5 ∧
      vc'.calls = [.GetVolumeStepInfo, .SetMute false, .VolumeStepUp, .VolumeStepUp]) ∧
    (∃ vc' ep', SetMinVolume mutedBound = some (true, vc') ∧
      vc'.endpoint_volume = some ep' ∧ ep'.current_step = 0 ∧
      vc'.calls = [.GetVolumeStepInfo, .SetMute false, .VolumeStepDown, .VolumeStepDown,
        .VolumeStepDown]) := by
  obtain ⟨⟨ok, vc', ep', a1, a2, a3, a4⟩, ⟨ok2, vc2, ep2, b1, b2, b3, b4⟩⟩ :=
    step_walk_reaches_target mutedBound mutedEndpoint rfl (by decide)
  have hok : ok = true := a3 (by simp [mutedEndpoint])
  have hok2 : ok2 = true := b3 (by simp [mutedEndpoint])
  subst hok
  subst hok2
  obtain ⟨c1, c2, c3⟩ := a4 rfl
  obtain ⟨d1, _, d3⟩ := b4 rfl
  refine ⟨⟨vc', ep', a1, a2, ?_, ?_, ?_⟩, ⟨vc2, ep2, b1, b2, d1, ?_⟩⟩
  · rw [c1, c2]; rfl
  · rw [c2]; rfl
  · rw [c3]; rfl
  · rw [d3]; rfl

/-- C7: while `send_events` is FALSE, `on_alsa_event` returns at once for every
event: the plugin is exactly as before, so nothing was sent on the event
channel, nothing logged, and the read count of the card is unchanged (no
volume read); the result is defined even without a card. -/
theorem inactive_event_dropped (self : FlutterVolumeControllerPlugin) (event : alsa_event)
    (h : self.send_events = false) :
    on_alsa_event event self = some self := by
  simp [on_alsa_event, h]

/-- Witness of C7: a values-changed event on a plugin that has just
unsubscribed from the sample card. -/
theorem inactive_event_dropped_witness :
    (event_cancel_cb activePlugin).2.send_events = false ∧
    on_alsa_event .ALSA_CARD_VALUES_CHANGED (event_cancel_cb activePlugin).2 =
      some (event_cancel_cb activePlugin).2 :=
  ⟨rfl, inactive_event_dropped (event_cancel_cb activePlugin).2 .ALSA_CARD_VALUES_CHANGED rfl⟩

/-- C8 (counterexample): on an active plugin a disconnect event puts no
`DeviceDisconnected` on the event channel, and the next values-changed event
still sends a `VolumeChanged` value although nobody subscribed again. -/
theorem disconnect_not_forwarded :
    activePlugin.send_events = true ∧
    ∃ s1 s2, on_alsa_event .ALSA_CARD_DISCONNECTED activePlugin = some s1 ∧
      ChangeEvent.DeviceDisconnected ∉ s1.event_channel ∧
      on_alsa_event .ALSA_CARD_VALUES_CHANGED s1 = some s2 ∧
      s2.event_channel = [.VolumeChanged (1 / 2)] := by
  refine ⟨rfl, _, _, rfl, ?_, rfl, ?_⟩
  · simp [activePlugin]
  · simp [activePlugin, alsa_card_get_volume, sampleCard]

/-- C8 (amended): on an active plugin a disconnect or error event is only
logged: nothing is sent on the event channel, the card is not read and the
subscription stays active, so that a later values-changed event, when the
card is present, still reads the card and sends its level as `VolumeChanged`. -/
theorem disconnect_only_logged (self : FlutterVolumeControllerPlugin) (event : alsa_event)
    (hactive : self.send_events = true)
    (hevent : event = .ALSA_CARD_DISCONNECTED ∨ event = .ALSA_CARD_ERROR) :
    ∃ s1, on_alsa_event event self = some s1 ∧
      s1.event_channel = self.event_channel ∧ s1.send_events = true ∧ s1.card = self.card ∧
      s1.critical_log ≠ self.critical_log ∧
      ∀ card, self.card = some card →
        on_alsa_event .ALSA_CARD_VALUES_CHANGED s1 =
          some { s1 with
            card := some (alsa_card_get_volume card).2,
            event_channel :=
              self.event_channel ++ [.VolumeChanged (alsa_card_get_volume card).1] } := by
  rcases hevent with rfl | rfl
  · refine ⟨{ self with critical_log := self.critical_log ++ ["alsa card disconnected"] },
      by simp [on_alsa_event, hactive], rfl, hactive, rfl, by simp, ?_⟩
    intro card hcard
    simp [on_alsa_event, hactive, on_alsa_values_changed, hcard]
  · refine ⟨{ self with critical_log := self.critical_log ++ ["alsa card error"] },
      by simp [on_alsa_event, hactive], rfl, hactive, rfl, by simp, ?_⟩
    intro card hcard
    simp [on_alsa_event, hactive, on_alsa_values_changed, hcard]

/-- Witness of C8 (amended) on the sample active plugin. -/
theorem disconnect_only_logged_witness :
    activePlugin.send_events = true ∧
    ∃ s1, on_alsa_event .ALSA_CARD_DISCONNECTED activePlugin = some s1 ∧
      s1.event_channel = [] ∧ s1.send_events = true ∧
      on_alsa_event .ALSA_CARD_VALUES_CHANGED s1 =
        some { s1 with card := some { sampleCard with volume_reads := 1 },
                       event_channel := [.VolumeChanged (1 / 2)] } := by
  obtain ⟨s1, h1, h2, h3, _, _, h6⟩ :=
    disconnect_only_logged activePlugin .ALSA_CARD_DISCONNECTED rfl (Or.inl rfl)
  refine ⟨rfl, s1, h1, h2, h3, ?_⟩
  rw [h6 sampleCard rfl]
  simp [activePlugin, alsa_card_get_volume, sampleCard]

/-- C9 (counterexample): on the unbound controller `RegisterNotification` with
a non-empty callback returns true, not false. -/
theorem unbound_register_succeeds :
    VolumeController.new.endpoint_volume = none ∧
    RegisterNotification VolumeController.new (some 7) = some (true, VolumeController.new) := by
  simp [RegisterNotification, VolumeController.new]

/-- C9 (amended): `event_listen_cb` returns an error response and leaves
`send_events` as it was when the card is absent or `alsa_card_add_watch`
reports failure; `RegisterNotification` returns false, with nothing registered
at the endpoint, when the registration call of a bound endpoint fails; on an
unbound controller `RegisterNotification` with a non-empty callback returns
true, leaving the controller unchanged and issuing no native call. -/
theorem subscribe_failure_paths (self : FlutterVolumeControllerPlugin) (vc : VolumeController)
    (cb : Nat) :
    ((self.card = none ∨ ∃ card, self.card = some card ∧ (alsa_card_add_watch card).1 = false) →
      (event_listen_cb self).1 = some .register_listener_failed ∧
      (event_listen_cb self).2.send_events = self.send_events) ∧
    (∀ ep, vc.endpoint_volume = some ep → FAILED ep.next.1 = true →
      ∃ vc' ep', RegisterNotification vc (some cb) = some (false, vc') ∧
        vc'.endpoint_volume = some ep' ∧ ep'.registered = ep.registered ∧
        vc'.calls = vc.calls ++ [.RegisterControlChangeNotify cb]) ∧
    (vc.endpoint_volume = none → RegisterNotification vc (some cb) = some (true, vc)) := by
  refine ⟨?_, ?_, ?_⟩
  · rintro (hnone | ⟨card, hcard, hfail⟩)
    · simp [event_listen_cb, hnone]
    · simp [event_listen_cb, hcard, hfail]
  · intro ep hep hf
    refine ⟨_, _, by simp [RegisterNotification, hep, VolumeController.invoke,
      Endpoint.RegisterControlChangeNotify, hf]; rfl, rfl, ?_, rfl⟩
    cases hh : ep.hresults <;> simp [Endpoint.next, hh]
  · intro hnone
    simp [RegisterNotification, hnone]

/-- Witness of C9 (amended): a plugin without a card, a bound controller whose
registration call fails, and the unbound controller. -/
theorem subscribe_failure_paths_witness :
    ((event_listen_cb cardlessPlugin).1 = some .register_listener_failed ∧
      (event_listen_cb cardlessPlugin).2.send_events = false) ∧
    (∃ vc' ep', RegisterNotification failingBound (some 7) = some (false, vc') ∧
      vc'.endpoint_volume = some ep' ∧ ep'.registered = [] ∧
      vc'.calls = [.RegisterControlChangeNotify 7]) ∧
    RegisterNotification VolumeController.new (some 7) = some (true, VolumeController.new) :=
  ⟨(subscribe_failure_paths cardlessPlugin failingBound 7).1 (Or.inl rfl),
    (subscribe_failure_paths cardlessPlugin failingBound 7).2.1 _ rfl (by decide),
    (subscribe_failure_paths cardlessPlugin VolumeController.new 7).2.2 rfl⟩

/-- C10 (the code at the failing input): on a bound controller holding a
registered notification, the first `DisposeNotification` issues the
deregistration and the release and leaves `volume_notification` set; the
second call issues both again on the released object, so two calls do not
leave the effects of one. -/
theorem DisposeNotification_twice_releases_twice :
    ∃ vc1 vc2, DisposeNotification subscribedBound = some vc1 ∧
      DisposeNotification vc1 = some vc2 ∧
      vc1.volume_notification = some 7 ∧
      vc1.calls = [.UnregisterControlChangeNotify 7, .NotificationRelease 7] ∧
      vc2.calls = [.UnregisterControlChangeNotify 7, .NotificationRelease 7,
        .UnregisterControlChangeNotify 7, .NotificationRelease 7] ∧
      vc2 ≠ vc1 := by
  refine ⟨_, _, rfl, rfl, rfl, rfl, rfl, ?_⟩
  intro h
  have := congrArg (fun v => v.calls.length) h
  revert this
  decide

/-! ## Unsubscribing on the paths that are idempotent -/

theorem event_cancel_cb_idempotent (self : FlutterVolumeControllerPlugin) :
    (event_cancel_cb self).1 = none ∧
    event_cancel_cb (event_cancel_cb self).2 = event_cancel_cb self ∧
    ∀ event, on_alsa_event event (event_cancel_cb self).2 = some (event_cancel_cb self).2 := by
  refine ⟨rfl, ?_, fun event => by simp [on_alsa_event, event_cancel_cb]⟩
  cases hc : self.card <;> simp [event_cancel_cb, hc, alsa_card_remove_watch]

theorem DisposeNotification_unsubscribed (vc : VolumeController)
    (h : vc.volume_notification = none) :
    DisposeNotification vc = some vc := by
  simp [DisposeNotification, h]

end flutter_volume_controller
